import Mathlib

/-!
Verification of the floating-rate preferred-stock tracker (`src/app.py`)
against its natural-language specification.

The program's numeric state is embedded over `ℚ`.  Python's `round`
(banker's rounding, round half to even) is modelled by `roundHalfEven` /
`roundTo`.  Calendar datetimes are day numbers: a date is an integer day
(midnight), an instant (`datetime.now()`) is a rational number of days, and
`timedelta.days` is the floor of the difference, matching Python's
normalisation of negative timedeltas.  Formatted table cells (percent
strings, dollar strings, the empty string, the "N/A" sentinel) are modelled
by the inductive `Cell`, carrying the rounded numeric value the string
renders.
-/

/-- Round half to even, as Python's `round` does on the scaled value. -/
def roundHalfEven (x : ℚ) : ℤ :=
  if x - ⌊x⌋ < 1/2 then ⌊x⌋
  else if x - ⌊x⌋ > 1/2 then ⌊x⌋ + 1
  else if ⌊x⌋ % 2 = 0 then ⌊x⌋ else ⌊x⌋ + 1

/-- Python's `round(x, n)`: round to `n` decimal places, half to even. -/
def roundTo (n : ℕ) (x : ℚ) : ℚ := (roundHalfEven (x * 10 ^ n) : ℚ) / 10 ^ n

/-- A rendered table cell: blank string, a percent string `f"{q:.k f}%"`
(carrying the rounded percentage `q`), a dollar string `f"${q:.4f}"`, or the
literal "N/A" sentinel string. -/
inductive Cell where
  | blank : Cell
  | pct (q : ℚ) : Cell
  | usd (q : ℚ) : Cell
  | na : Cell
deriving DecidableEq

/-- `ISDA_SPREAD = 0.002616` from `app.py`. -/
def ISDA_SPREAD : ℚ := 2616 / 1000000

/-- Par value `25.0` used throughout the financial math in `app.py`. -/
def parValue : ℚ := 25

/-- One entry of the `META` dict in `app.py`: margin, previous coupon and the
optional declared current rate (`None` is modelled as `Option.none`). -/
structure InstrumentMeta where
  margin : ℚ
  prev_coupon : ℚ
  declared : Option ℚ
deriving DecidableEq

/-- `TICKERS` from `app.py`. -/
def TICKERS : List String := ["MFA-PC", "RITM-PA", "RITM-PB"]

/-- The `META` dict from `app.py` (total function; tickers outside the dict
get a junk entry that the program never looks up). -/
def META : String → InstrumentMeta := fun t =>
  if t = "MFA-PC" then ⟨5345/100000, 6139/10000, none⟩
  else if t = "RITM-PA" then ⟨5802/100000, 6565/10000, some (9915/100000)⟩
  else if t = "RITM-PB" then ⟨5640/100000, 6461/10000, some (9753/100000)⟩
  else ⟨0, 0, none⟩

/-- Rate logic of `calculate_metrics` line 71:
`current_rate = m['declared'] if m['declared'] else (sofr + m['margin'] + ISDA_SPREAD)`.
Python truthiness: both `None` and `0.0` are falsy, so a declared rate of
zero falls through to the floating formula. -/
def currentRateOf (m : InstrumentMeta) (sofr : ℚ) : ℚ :=
  match m.declared with
  | some d => if d = 0 then sofr + m.margin + ISDA_SPREAD else d
  | none => sofr + m.margin + ISDA_SPREAD

/-- Line 72: `projected_rate = sofr + m['margin'] + ISDA_SPREAD`. -/
def projectedRateOf (m : InstrumentMeta) (sofr : ℚ) : ℚ :=
  sofr + m.margin + ISDA_SPREAD

/-- Line 77: `days_elapsed = (datetime.now() - last_ex_dt).days`.
`asOf` is the current instant in days, `lastEx` the ex-date (midnight);
`timedelta.days` is the floor of the signed difference. -/
def daysElapsed (asOf : ℚ) (lastEx : ℤ) : ℤ := ⌊asOf - (lastEx : ℚ)⌋

/-- The raw (un-rounded) per-row quantities computed by the body of
`calculate_metrics` (lines 71-83), as functions of the instrument metadata,
the market price, the elapsed days and the reference rate. -/
structure ComputedMetrics where
  currentRate : ℚ
  projectedRate : ℚ
  days : ℤ
  accrued : ℚ
  cleanPrice : ℚ
  yoc : ℚ
deriving DecidableEq

/-- Lines 71-83 of `app.py`, verbatim over `ℚ`:
`accrued = (25.0 * current_rate) * (days_elapsed / 360)`,
`clean_price = price - accrued`,
`yoc = annual_payout / clean_price if clean_price > 0 else 0`. -/
def computeRowD (m : InstrumentMeta) (price : ℚ) (days : ℤ) (sofr : ℚ) :
    ComputedMetrics :=
  let current_rate := currentRateOf m sofr
  let projected_rate := projectedRateOf m sofr
  let accrued := (parValue * current_rate) * ((days : ℚ) / 360)
  let clean_price := price - accrued
  let annual_payout := parValue * current_rate
  let yoc := if clean_price > 0 then annual_payout / clean_price else 0
  ⟨current_rate, projected_rate, days, accrued, clean_price, yoc⟩

/-- A row of the working dataframe held in `st.session_state.df`:
the editable input columns plus the derived/display columns that
`calculate_metrics` overwrites each cycle. -/
structure MarketRow where
  ticker : String
  marketPrice : ℚ
  lastExDate : ℤ
  nextExDate : ℤ
  accruedInterest : ℚ
  cleanPrice : ℚ
  yieldOnClean : Cell
  nextPayout : Cell
  currentCoupon : Cell
  projectedCoupon : Cell
deriving DecidableEq

/-- Lines 85-90 of `app.py`: write the derived columns of one row.
`Current Coupon` and `Projected Coupon` are `f"{rate*100:.4f}%"`,
`Accrued Interest` is `round(accrued, 4)`, `Clean Price` is
`round(clean_price, 3)`, `Yield on Clean` is `f"{yoc*100:.3f}%"`,
`Next Payout` is `f"${annual/4:.4f}"`. -/
def updateRow (sofr asOf : ℚ) (m : InstrumentMeta) (r : MarketRow) : MarketRow :=
  let d := daysElapsed asOf r.lastExDate
  let c := computeRowD m r.marketPrice d sofr
  { r with
    currentCoupon := Cell.pct (roundTo 4 (c.currentRate * 100))
    projectedCoupon := Cell.pct (roundTo 4 (c.projectedRate * 100))
    accruedInterest := roundTo 4 c.accrued
    cleanPrice := roundTo 3 c.cleanPrice
    yieldOnClean := Cell.pct (roundTo 3 (c.yoc * 100))
    nextPayout := Cell.usd (roundTo 4 (parValue * c.currentRate / 4)) }

/-- `calculate_metrics(df, sofr)` (lines 63-92): copies the dataframe and
rewrites the derived columns of every row, looking up `META[row['Ticker']]`,
at the instant `asOf` (`datetime.now()`). -/
def calculate_metrics (df : List MarketRow) (sofr asOf : ℚ) : List MarketRow :=
  df.map (fun r => updateRow sofr asOf (META r.ticker) r)

/-- The scenario-yield cell of the sensitivity loop (lines 155-165):
`scenario_coupon = (sofr + shift) + margin + ISDA_SPREAD`; when the row's
(already rounded, line 151 pulls `Clean Price` from `display_df`) clean
price is positive the cell is `f"{(25*coupon/clean_p)*100:.3f}%"`, else
the literal string "N/A". -/
def scenarioCell (m : InstrumentMeta) (sofr shift clean_p : ℚ) : Cell :=
  let scenario_coupon := sofr + shift + m.margin + ISDA_SPREAD
  if clean_p > 0 then Cell.pct (roundTo 3 ((parValue * scenario_coupon / clean_p) * 100))
  else Cell.na

/-- The raw scenario yield `(25.0 * scenario_coupon) / clean_p` of line 162,
before formatting. -/
def scenarioYield (m : InstrumentMeta) (sofr shift clean_p : ℚ) : ℚ :=
  parValue * (sofr + shift + m.margin + ISDA_SPREAD) / clean_p

/-- The rate shifts of line 140. -/
def shifts : List ℚ := [-75/10000, -50/10000, -25/10000, 0, 100/10000, 125/10000, 150/10000]

/-- Lines 130-132: the edit-sync step.  If the edited dataframe differs from
the displayed one, session state is replaced wholesale by the edited
dataframe (no validation); otherwise it is left unchanged. -/
def syncEdits (sessionDf displayDf editedDf : List MarketRow) : List MarketRow :=
  if editedDf = displayDf then sessionDf else editedDf

/-- A provider quote: the raw close price from the price history and the
last/next ex-dividend day numbers, as produced by the market-data feed
(lines 33-44, with fallbacks already applied). -/
structure ProviderQuote where
  price : ℚ
  lastEx : ℤ
  nextEx : ℤ

/-- Lines 46-59: one seeded row of `fetch_live_data` — `Market Price` is
`round(float(price), 2)`, the derived columns start as `0.0` / `""`. -/
def fetchRow (t : String) (q : ProviderQuote) : MarketRow :=
  { ticker := t, marketPrice := roundTo 2 q.price, lastExDate := q.lastEx,
    nextExDate := q.nextEx, accruedInterest := 0, cleanPrice := 0,
    yieldOnClean := Cell.blank, nextPayout := Cell.blank,
    currentCoupon := Cell.blank, projectedCoupon := Cell.blank }

/-- `fetch_live_data()` (lines 30-60): one row per ticker, in `TICKERS`
order, from the provider's quotes. -/
def fetch_live_data (quotes : String → ProviderQuote) : List MarketRow :=
  TICKERS.map (fun t => fetchRow t (quotes t))

/-- Lines 94-97: the refresh handler deletes `st.session_state.df`
(session state modelled as `Option`): the result is always `none`. -/
def refreshReset (_sessionDf : Option (List MarketRow)) : Option (List MarketRow) :=
  none

/-- Lines 99-100: seed the session table from a fresh snapshot when absent. -/
def seedIfAbsent (sessionDf : Option (List MarketRow)) (snapshot : List MarketRow) :
    List MarketRow :=
  match sessionDf with
  | some df => df
  | none => snapshot

/-- A fresh MFA-PC row as seeded by the snapshot provider: market price
$24.80, last ex-date at day 0, next ex-date 91 days later. -/
def rowC1 : MarketRow :=
  ⟨"MFA-PC", 124/5, 0, 91, 0, 0, Cell.blank, Cell.blank, Cell.blank, Cell.blank⟩

/-- An MFA-PC row whose market price ($0.10) is far below the accrued
interest, so the computed clean price is negative. -/
def rowC5 : MarketRow :=
  ⟨"MFA-PC", 1/10, 0, 91, 0, 0, Cell.blank, Cell.blank, Cell.blank, Cell.blank⟩

/-- The prior session row for the edit-sync scenario: MFA-PC at $24.80. -/
def rowC7 : MarketRow :=
  ⟨"MFA-PC", 124/5, 0, 91, 0, 0, Cell.blank, Cell.blank, Cell.blank, Cell.blank⟩

/-- The session table before the edit. -/
def sessionC7 : List MarketRow := [rowC7]

/-- The rendered table: `calculate_metrics` applied to the session table at
reference rate 3.6946% and an instant 45.5 days after the ex-date. -/
def displayC7 : List MarketRow := calculate_metrics sessionC7 (36946/1000000) (91/2)

/-- The table as returned by the editor widget after the operator types a
negative market price (−$5) into the MFA-PC row. -/
def editedC7 : List MarketRow :=
  [{ updateRow (36946/1000000) (91/2) (META "MFA-PC") rowC7 with marketPrice := -5 }]

/-- A session row carrying a user edit (market price $99) to be discarded by
the reset-to-live action. -/
def editedRowC9 : MarketRow :=
  ⟨"MFA-PC", 99, 0, 91, 0, 0, Cell.blank, Cell.blank, Cell.blank, Cell.blank⟩

/-- Concrete provider quotes for the reset scenario: every ticker trades at
$25.1625 with ex-dates at days 100 and 191. -/
def quotesC9 : String → ProviderQuote := fun _ => ⟨2013/80, 100, 191⟩

/-- Floor of a rational from explicit integer bounds. -/
theorem floor_eq_of {x : ℚ} {z : ℤ} (h1 : (z : ℚ) ≤ x) (h2 : x < z + 1) : ⌊x⌋ = z :=
  Int.floor_eq_iff.mpr ⟨h1, h2⟩

/-- `roundHalfEven` at a value strictly below the half-way point rounds down. -/
theorem roundHalfEven_eq_down {x : ℚ} {z : ℤ} (h1 : (z : ℚ) ≤ x) (h2 : x < z + 1/2) :
    roundHalfEven x = z := by
  have hfl : ⌊x⌋ = z := floor_eq_of h1 (by linarith)
  unfold roundHalfEven
  rw [hfl]
  rw [if_pos (by linarith)]

/-- `roundHalfEven` at a value strictly above the half-way point rounds up. -/
theorem roundHalfEven_eq_up {x : ℚ} {z : ℤ} (h1 : (z : ℚ) - 1/2 < x) (h2 : x < z) :
    roundHalfEven x = z := by
  have hfl : ⌊x⌋ = z - 1 := floor_eq_of (by push_cast; linarith) (by push_cast; linarith)
  unfold roundHalfEven
  rw [hfl]
  rw [if_neg (by push_cast; linarith), if_pos (by push_cast; linarith)]
  omega

/-- Evaluate `roundTo` when the scaled value rounds down. -/
theorem roundTo_eq_down {n : ℕ} {x : ℚ} {z : ℤ} (h1 : (z : ℚ) ≤ x * 10 ^ n)
    (h2 : x * 10 ^ n < z + 1/2) : roundTo n x = z / 10 ^ n := by
  unfold roundTo; rw [roundHalfEven_eq_down h1 h2]

/-- Evaluate `roundTo` when the scaled value rounds up. -/
theorem roundTo_eq_up {n : ℕ} {x : ℚ} {z : ℤ} (h1 : (z : ℚ) - 1/2 < x * 10 ^ n)
    (h2 : x * 10 ^ n < z) : roundTo n x = z / 10 ^ n := by
  unfold roundTo; rw [roundHalfEven_eq_up h1 h2]

/-- `roundHalfEven` of a non-positive value is non-positive. -/
theorem roundHalfEven_nonpos {x : ℚ} (hx : x ≤ 0) : roundHalfEven x ≤ 0 := by
  have h0 : ⌊x⌋ ≤ 0 := by
    have := Int.floor_mono hx
    simpa using this
  have key : ¬ x - ⌊x⌋ < 1/2 → ⌊x⌋ + 1 ≤ 0 := by
    intro h
    have h1 : (1:ℚ)/2 ≤ x - ⌊x⌋ := not_lt.mp h
    have h2 : (⌊x⌋ : ℚ) < 0 := by linarith
    have h3 : ⌊x⌋ < 0 := by exact_mod_cast h2
    omega
  unfold roundHalfEven
  split_ifs with hc1 hc2 hc3
  · exact h0
  · exact key hc1
  · exact h0
  · exact key hc1

/-- `roundTo` of a non-positive value is non-positive. -/
theorem roundTo_nonpos (n : ℕ) {x : ℚ} (hx : x ≤ 0) : roundTo n x ≤ 0 := by
  unfold roundTo
  have hp : (0:ℚ) < 10 ^ n := by positivity
  have h1 : x * 10 ^ n ≤ 0 := by nlinarith
  have h2 : ((roundHalfEven (x * 10 ^ n) : ℤ) : ℚ) ≤ 0 := by
    exact_mod_cast roundHalfEven_nonpos h1
  exact div_nonpos_of_nonpos_of_nonneg h2 (le_of_lt hp)

/-- `roundTo` of zero is zero. -/
theorem roundTo_zero (n : ℕ) : roundTo n 0 = 0 := by
  unfold roundTo
  have h : roundHalfEven (0 * 10 ^ n) = 0 := by
    apply roundHalfEven_eq_down (z := 0) <;> norm_num
  rw [h]
  norm_num

/-- 45.5 days after day 0, `timedelta.days` is 45. -/
theorem daysElapsed_45 : daysElapsed (91/2) 0 = 45 := by
  unfold daysElapsed
  rw [show ((91:ℚ)/2 - ((0:ℤ):ℚ)) = 91/2 by norm_num]
  exact floor_eq_of (by norm_num) (by norm_num)

/-- Projection: `updateRow` stores `round(clean_price, 3)`. -/
theorem updateRow_cleanPrice (sofr asOf : ℚ) (m : InstrumentMeta) (r : MarketRow) :
    (updateRow sofr asOf m r).cleanPrice =
      roundTo 3 (computeRowD m r.marketPrice (daysElapsed asOf r.lastExDate) sofr).cleanPrice :=
  rfl

/-- Projection: `updateRow` stores `round(accrued, 4)`. -/
theorem updateRow_accruedInterest (sofr asOf : ℚ) (m : InstrumentMeta) (r : MarketRow) :
    (updateRow sofr asOf m r).accruedInterest =
      roundTo 4 (computeRowD m r.marketPrice (daysElapsed asOf r.lastExDate) sofr).accrued :=
  rfl

/-- Projection: `updateRow` leaves the market price unchanged. -/
theorem updateRow_marketPrice (sofr asOf : ℚ) (m : InstrumentMeta) (r : MarketRow) :
    (updateRow sofr asOf m r).marketPrice = r.marketPrice :=
  rfl

/-- Projection: `updateRow` renders the yield as `f"{yoc*100:.3f}%"`. -/
theorem updateRow_yieldOnClean (sofr asOf : ℚ) (m : InstrumentMeta) (r : MarketRow) :
    (updateRow sofr asOf m r).yieldOnClean =
      Cell.pct
        (roundTo 3
          ((computeRowD m r.marketPrice (daysElapsed asOf r.lastExDate) sofr).yoc * 100)) :=
  rfl

/-- Projection: `updateRow` leaves the ticker unchanged. -/
theorem updateRow_ticker (sofr asOf : ℚ) (m : InstrumentMeta) (r : MarketRow) :
    (updateRow sofr asOf m r).ticker = r.ticker :=
  rfl

/-- Rewriting `updateRow` a second time with the same inputs changes nothing:
the derived columns are recomputed from the untouched input columns. -/
theorem updateRow_idem (sofr asOf : ℚ) (m : InstrumentMeta) (r : MarketRow) :
    updateRow sofr asOf m (updateRow sofr asOf m r) = updateRow sofr asOf m r :=
  rfl

/-- The `yoc` field is the guarded quotient of line 83. -/
theorem computeRowD_yoc (m : InstrumentMeta) (price : ℚ) (days : ℤ) (sofr : ℚ) :
    (computeRowD m price days sofr).yoc =
      if (computeRowD m price days sofr).cleanPrice > 0 then
        parValue * currentRateOf m sofr / (computeRowD m price days sofr).cleanPrice
      else 0 :=
  rfl

/-- The sensitivity cell at a positive clean price is the formatted yield. -/
theorem scenarioCell_pos (m : InstrumentMeta) (sofr shift clean_p : ℚ) (h : clean_p > 0) :
    scenarioCell m sofr shift clean_p =
      Cell.pct (roundTo 3 (parValue * (sofr + shift + m.margin + ISDA_SPREAD) / clean_p * 100)) := by
  simp only [scenarioCell]
  rw [if_pos h]

/-- The sensitivity cell at a non-positive clean price is the "N/A" string. -/
theorem scenarioCell_nonpos (m : InstrumentMeta) (sofr shift clean_p : ℚ) (h : clean_p ≤ 0) :
    scenarioCell m sofr shift clean_p = Cell.na := by
  simp only [scenarioCell]
  rw [if_neg (not_lt.mpr h)]

/-- Evaluation of the `META` lookup at MFA-PC. -/
theorem META_MFA : META "MFA-PC" = ⟨5345/100000, 6139/10000, none⟩ := rfl

/-- Evaluation of the `META` lookup at RITM-PA. -/
theorem META_RITM_PA : META "RITM-PA" = ⟨5802/100000, 6565/10000, some (9915/100000)⟩ := rfl

/-- Evaluation of the `META` lookup at RITM-PB. -/
theorem META_RITM_PB : META "RITM-PB" = ⟨5640/100000, 6461/10000, some (9753/100000)⟩ := rfl

/-- The edited table differs from the displayed table: the MFA-PC market
price was changed from $24.80 to −$5. -/
theorem editedC7_ne_displayC7 : editedC7 ≠ displayC7 := by
  intro h
  have hd : displayC7.head?.map MarketRow.marketPrice = some (124/5) := rfl
  have he : editedC7.head?.map MarketRow.marketPrice = some (-5) := rfl
  rw [h, hd] at he
  have : (124:ℚ)/5 = -5 := by injection he
  norm_num at this

/-- Claim C1 is false on the stored fields: at reference rate 3.6946%, MFA-PC
market price $24.80 and 45 elapsed days, the stored Clean Price is 24.509
(rounded to 3 decimals) while stored Market Price minus stored Accrued
Interest is 24.80 − 0.2907 = 24.5093, so the stored identity fails. -/
theorem C1_counterexample :
    (updateRow (36946/1000000) (91/2) (META "MFA-PC") rowC1).cleanPrice ≠
      (updateRow (36946/1000000) (91/2) (META "MFA-PC") rowC1).marketPrice -
        (updateRow (36946/1000000) (91/2) (META "MFA-PC") rowC1).accruedInterest := by
  rw [updateRow_cleanPrice, updateRow_marketPrice, updateRow_accruedInterest]
  rw [show rowC1.marketPrice = 124/5 from rfl, show rowC1.lastExDate = (0:ℤ) from rfl,
    daysElapsed_45]
  have h1 : (computeRowD (META "MFA-PC") (124/5) 45 (36946/1000000)).cleanPrice =
      1960747/80000 := by
    norm_num [computeRowD, currentRateOf, META, ISDA_SPREAD, parValue]
  have h2 : (computeRowD (META "MFA-PC") (124/5) 45 (36946/1000000)).accrued =
      23253/80000 := by
    norm_num [computeRowD, currentRateOf, META, ISDA_SPREAD, parValue]
  rw [h1, h2, roundTo_eq_down (z := 24509) (by norm_num) (by norm_num),
    roundTo_eq_up (z := 2907) (by norm_num) (by norm_num)]
  norm_num

/-- Claim C1 (amended): for every row in every recompute cycle the raw
computed clean price equals the row's market price minus the raw accrued
interest exactly; the stored fields are then rounded independently (accrued
to 4 decimals, clean price to 3), so the identity between the stored values
can be off in the last displayed digit. -/
theorem C1_raw_clean_price_identity (m : InstrumentMeta) (price : ℚ) (days : ℤ) (sofr : ℚ) :
    (computeRowD m price days sofr).cleanPrice = price - (computeRowD m price days sofr).accrued :=
  rfl

/-- Claim C2: for every instrument of the program whose metadata declares a
rate, the computed current rate equals that declared rate verbatim for every
reference rate, while the projected rate always equals
reference rate + margin + ISDA spread and so varies with the reference rate. -/
theorem C2_declared_rate_policy :
    ∀ t ∈ TICKERS, ∀ sofr : ℚ,
      (∀ d : ℚ, (META t).declared = some d → currentRateOf (META t) sofr = d) ∧
      projectedRateOf (META t) sofr = sofr + (META t).margin + ISDA_SPREAD ∧
      ∀ sofr2 : ℚ, sofr2 ≠ sofr →
        projectedRateOf (META t) sofr2 ≠ projectedRateOf (META t) sofr := by
  intro t ht sofr
  refine ⟨?_, rfl, ?_⟩
  · intro d hd
    fin_cases ht
    · simp [META] at hd
    · simp [META] at hd
      subst hd
      simp [currentRateOf, META]
    · simp [META] at hd
      subst hd
      simp [currentRateOf, META]
  · intro sofr2 hne h
    apply hne
    simp only [projectedRateOf] at h
    linarith

/-- Claim C2 witness at RITM-PA (declared rate 9.915%) and reference rates
1% and 2%. -/
theorem C2_witness :
    ("RITM-PA" ∈ TICKERS) ∧
    (META "RITM-PA").declared = some (9915/100000) ∧
    currentRateOf (META "RITM-PA") (1/100) = 9915/100000 ∧
    projectedRateOf (META "RITM-PA") (1/100) = 1/100 + (META "RITM-PA").margin + ISDA_SPREAD ∧
    projectedRateOf (META "RITM-PA") (2/100) ≠ projectedRateOf (META "RITM-PA") (1/100) := by
  have h := C2_declared_rate_policy "RITM-PA" (by decide) (1/100)
  exact ⟨by decide, rfl, h.1 _ rfl, h.2.1, h.2.2 (2/100) (by norm_num)⟩

/-- Claim C3 is false at its own input: with reference rate 3.6946%, MFA-PC,
market price $24.80 and 45 elapsed days the engine's yield on clean renders
as 9.487%, not the claimed 9.486%, and the clean price is 24.5093375 raw
(24.509 stored), not 24.5093. -/
theorem C3_counterexample :
    roundTo 3 ((computeRowD (META "MFA-PC") (124/5) 45 (36946/1000000)).yoc * 100) ≠
      9486/1000 ∧
    (computeRowD (META "MFA-PC") (124/5) 45 (36946/1000000)).cleanPrice ≠ 245093/10000 ∧
    roundTo 3 (computeRowD (META "MFA-PC") (124/5) 45 (36946/1000000)).cleanPrice ≠
      245093/10000 := by
  have hclean : (computeRowD (META "MFA-PC") (124/5) 45 (36946/1000000)).cleanPrice =
      1960747/80000 := by
    norm_num [computeRowD, currentRateOf, META, ISDA_SPREAD, parValue]
  have hyoc : (computeRowD (META "MFA-PC") (124/5) 45 (36946/1000000)).yoc * 100 =
      18602400/1960747 := by
    norm_num [computeRowD, currentRateOf, META, ISDA_SPREAD, parValue]
  refine ⟨?_, ?_, ?_⟩
  · rw [hyoc, roundTo_eq_down (z := 9487) (by norm_num) (by norm_num)]
    norm_num
  · rw [hclean]; norm_num
  · rw [hclean, roundTo_eq_down (z := 24509) (by norm_num) (by norm_num)]
    norm_num

/-- Claim C3 (amended): at reference rate 3.6946%, margin 5.345%, ISDA
spread 0.2616%, no declared rate, market price $24.80 and 45 elapsed days,
the engine computes current rate = projected rate = 9.3012%, accrued
25·0.093012·(45/360) = 0.2906625 ($0.2907 at display rounding), clean price
24.5093375 (stored/displayed as 24.509 under the 3-decimal policy), and the
yield on clean renders as 9.487%. -/
theorem C3_scenario_values :
    (computeRowD (META "MFA-PC") (124/5) 45 (36946/1000000)).currentRate = 93012/1000000 ∧
    (computeRowD (META "MFA-PC") (124/5) 45 (36946/1000000)).projectedRate = 93012/1000000 ∧
    (computeRowD (META "MFA-PC") (124/5) 45 (36946/1000000)).accrued = 23253/80000 ∧
    roundTo 4 (computeRowD (META "MFA-PC") (124/5) 45 (36946/1000000)).accrued = 2907/10000 ∧
    (computeRowD (META "MFA-PC") (124/5) 45 (36946/1000000)).cleanPrice = 1960747/80000 ∧
    roundTo 3 (computeRowD (META "MFA-PC") (124/5) 45 (36946/1000000)).cleanPrice =
      24509/1000 ∧
    roundTo 3 ((computeRowD (META "MFA-PC") (124/5) 45 (36946/1000000)).yoc * 100) =
      9487/1000 := by
  have hacc : (computeRowD (META "MFA-PC") (124/5) 45 (36946/1000000)).accrued =
      23253/80000 := by
    norm_num [computeRowD, currentRateOf, META, ISDA_SPREAD, parValue]
  have hclean : (computeRowD (META "MFA-PC") (124/5) 45 (36946/1000000)).cleanPrice =
      1960747/80000 := by
    norm_num [computeRowD, currentRateOf, META, ISDA_SPREAD, parValue]
  have hyoc : (computeRowD (META "MFA-PC") (124/5) 45 (36946/1000000)).yoc * 100 =
      18602400/1960747 := by
    norm_num [computeRowD, currentRateOf, META, ISDA_SPREAD, parValue]
  refine ⟨?_, ?_, hacc, ?_, hclean, ?_, ?_⟩
  · norm_num [computeRowD, currentRateOf, META, ISDA_SPREAD, parValue]
  · norm_num [computeRowD, projectedRateOf, META, ISDA_SPREAD, parValue]
  · rw [hacc, roundTo_eq_up (z := 2907) (by norm_num) (by norm_num)]
    norm_num
  · rw [hclean, roundTo_eq_down (z := 24509) (by norm_num) (by norm_num)]
    norm_num
  · rw [hyoc, roundTo_eq_down (z := 9487) (by norm_num) (by norm_num)]
    norm_num

/-- Claim C4: the code contradicts its own column help text ("Matches Yield
on Clean from the top table").  For RITM-PA (declared rate 9.915%) at
reference rate 3.6946%, market price $25.00 and 45 elapsed days, the main
table renders Yield on Clean as 10.039% (numerator uses the declared rate)
while the sensitivity cell at shift 0 renders 9.881% (numerator uses the
projected rate, denominator the rounded clean price). -/
theorem C4_shift_zero_divergence :
    roundTo 3 ((computeRowD (META "RITM-PA") 25 45 (36946/1000000)).yoc * 100) =
      10039/1000 ∧
    scenarioCell (META "RITM-PA") (36946/1000000) 0
        (roundTo 3 (computeRowD (META "RITM-PA") 25 45 (36946/1000000)).cleanPrice) =
      Cell.pct (9881/1000) ∧
    (0:ℚ) ∈ shifts ∧
    Cell.pct ((10039:ℚ)/1000) ≠ Cell.pct ((9881:ℚ)/1000) := by
  have hclean : (computeRowD (META "RITM-PA") 25 45 (36946/1000000)).cleanPrice =
      158017/6400 := by
    rw [META_RITM_PA]
    norm_num [computeRowD, currentRateOf, ISDA_SPREAD, parValue]
  have hcleanR : roundTo 3 ((158017:ℚ)/6400) = 2469/100 := by
    rw [roundTo_eq_down (z := 24690) (by norm_num) (by norm_num)]
    norm_num
  have hyoc : (computeRowD (META "RITM-PA") 25 45 (36946/1000000)).yoc * 100 =
      1586400/158017 := by
    rw [META_RITM_PA]
    norm_num [computeRowD, currentRateOf, ISDA_SPREAD, parValue]
  refine ⟨?_, ?_, ?_, ?_⟩
  · rw [hyoc, roundTo_eq_down (z := 10039) (by norm_num) (by norm_num)]
    norm_num
  · rw [hclean, hcleanR, scenarioCell_pos _ _ _ _ (by norm_num)]
    have harg : parValue * (36946/1000000 + 0 + (META "RITM-PA").margin + ISDA_SPREAD) /
        (2469/100) * 100 = 48791/4938 := by
      rw [META_RITM_PA]
      norm_num [parValue, ISDA_SPREAD]
    rw [harg, roundTo_eq_up (z := 9881) (by norm_num) (by norm_num)]
    norm_num
  · simp [shifts]
  · simp only [ne_eq, Cell.pct.injEq]
    norm_num

/-- Claim C5 is false for the main table: with MFA-PC at market price $0.10
(clean price −0.19) the Yield on Clean cell renders the zero sentinel
"0.000%", not the "N/A" string. -/
theorem C5_counterexample :
    (computeRowD (META "MFA-PC") rowC5.marketPrice (daysElapsed (91/2) rowC5.lastExDate)
        (36946/1000000)).cleanPrice ≤ 0 ∧
    (updateRow (36946/1000000) (91/2) (META "MFA-PC") rowC5).yieldOnClean ≠ Cell.na ∧
    (updateRow (36946/1000000) (91/2) (META "MFA-PC") rowC5).yieldOnClean = Cell.pct 0 := by
  have hd : daysElapsed (91/2) rowC5.lastExDate = 45 := by
    rw [show rowC5.lastExDate = (0:ℤ) from rfl, daysElapsed_45]
  have hclean : (computeRowD (META "MFA-PC") rowC5.marketPrice
      (daysElapsed (91/2) rowC5.lastExDate) (36946/1000000)).cleanPrice ≤ 0 := by
    rw [show rowC5.marketPrice = 1/10 from rfl, hd]
    norm_num [computeRowD, currentRateOf, META, ISDA_SPREAD, parValue]
  have hyoc : (computeRowD (META "MFA-PC") rowC5.marketPrice
      (daysElapsed (91/2) rowC5.lastExDate) (36946/1000000)).yoc = 0 := by
    rw [computeRowD_yoc, if_neg (not_lt.mpr hclean)]
  have hcell : (updateRow (36946/1000000) (91/2) (META "MFA-PC") rowC5).yieldOnClean =
      Cell.pct 0 := by
    rw [updateRow_yieldOnClean, hyoc]
    rw [show (0:ℚ) * 100 = 0 by norm_num, roundTo_zero]
  refine ⟨hclean, ?_, hcell⟩
  rw [hcell]
  simp

/-- Claim C5 (amended): for every row whose computed clean price is
non-positive, the main table's Yield on Clean is the zero sentinel (rendered
"0.000%", never a division error, and not the "N/A" string), while every
sensitivity-table scenario cell for that row is the "N/A" string. -/
theorem C5_nonpositive_clean_policy (sofr asOf shift : ℚ) (m : InstrumentMeta)
    (r : MarketRow)
    (h : (computeRowD m r.marketPrice (daysElapsed asOf r.lastExDate) sofr).cleanPrice ≤ 0) :
    (updateRow sofr asOf m r).yieldOnClean = Cell.pct 0 ∧
    (updateRow sofr asOf m r).yieldOnClean ≠ Cell.na ∧
    scenarioCell m sofr shift ((updateRow sofr asOf m r).cleanPrice) = Cell.na := by
  have hyoc : (computeRowD m r.marketPrice (daysElapsed asOf r.lastExDate) sofr).yoc = 0 := by
    rw [computeRowD_yoc, if_neg (not_lt.mpr h)]
  have hcell : (updateRow sofr asOf m r).yieldOnClean = Cell.pct 0 := by
    rw [updateRow_yieldOnClean, hyoc]
    rw [show (0:ℚ) * 100 = 0 by norm_num, roundTo_zero]
  refine ⟨hcell, ?_, ?_⟩
  · rw [hcell]
    simp
  · apply scenarioCell_nonpos
    rw [updateRow_cleanPrice]
    exact roundTo_nonpos 3 h

/-- Claim C5 witness: the amended policy at the concrete MFA-PC row with
market price $0.10, reference rate 3.6946%, 45.5 days after the ex-date. -/
theorem C5_witness :
    ((computeRowD (META "MFA-PC") rowC5.marketPrice (daysElapsed (91/2) rowC5.lastExDate)
        (36946/1000000)).cleanPrice ≤ 0) ∧
    (updateRow (36946/1000000) (91/2) (META "MFA-PC") rowC5).yieldOnClean = Cell.pct 0 ∧
    (updateRow (36946/1000000) (91/2) (META "MFA-PC") rowC5).yieldOnClean ≠ Cell.na ∧
    scenarioCell (META "MFA-PC") (36946/1000000) 0
      ((updateRow (36946/1000000) (91/2) (META "MFA-PC") rowC5).cleanPrice) = Cell.na := by
  have h : (computeRowD (META "MFA-PC") rowC5.marketPrice
      (daysElapsed (91/2) rowC5.lastExDate) (36946/1000000)).cleanPrice ≤ 0 := by
    rw [show rowC5.marketPrice = 1/10 from rfl, show rowC5.lastExDate = (0:ℤ) from rfl,
      daysElapsed_45]
    norm_num [computeRowD, currentRateOf, META, ISDA_SPREAD, parValue]
  exact ⟨h, C5_nonpositive_clean_policy (36946/1000000) (91/2) 0 (META "MFA-PC") rowC5 h⟩

/-- Claim C6: for a fixed as-of instant, the recompute pass is deterministic
(identical inputs give identical output) and idempotent (running
`calculate_metrics` on its own output with the same reference rate and
instant reproduces the output exactly — no drift from repeated rounding,
since the pass reads only the input columns it never modifies). -/
theorem C6_recompute_pure_idempotent (df : List MarketRow) (sofr asOf : ℚ) :
    calculate_metrics df sofr asOf = calculate_metrics df sofr asOf ∧
    calculate_metrics (calculate_metrics df sofr asOf) sofr asOf =
      calculate_metrics df sofr asOf := by
  refine ⟨rfl, ?_⟩
  induction df with
  | nil => rfl
  | cons r rs ih =>
    have hstep : calculate_metrics (r :: rs) sofr asOf =
        updateRow sofr asOf (META r.ticker) r :: calculate_metrics rs sofr asOf := rfl
    rw [hstep]
    have hstep2 : calculate_metrics
        (updateRow sofr asOf (META r.ticker) r :: calculate_metrics rs sofr asOf) sofr asOf =
        updateRow sofr asOf (META (updateRow sofr asOf (META r.ticker) r).ticker)
            (updateRow sofr asOf (META r.ticker) r) ::
          calculate_metrics (calculate_metrics rs sofr asOf) sofr asOf := rfl
    rw [hstep2, ih, updateRow_ticker, updateRow_idem]

/-- Claim C7 is false: typing a negative market price (−$5) into the MFA-PC
row is accepted — the edit-sync step stores the edited table wholesale into
session state, the new market price is −5, and the prior value $24.80 is not
retained; no validation error exists in the sync path. -/
theorem C7_counterexample :
    rowC7.marketPrice = 124/5 ∧
    editedC7.head?.map MarketRow.marketPrice = some (-5) ∧
    editedC7 ≠ displayC7 ∧
    syncEdits sessionC7 displayC7 editedC7 = editedC7 ∧
    (syncEdits sessionC7 displayC7 editedC7).head?.map MarketRow.marketPrice = some (-5) := by
  refine ⟨rfl, rfl, editedC7_ne_displayC7, ?_, ?_⟩
  · unfold syncEdits
    rw [if_neg editedC7_ne_displayC7]
  · unfold syncEdits
    rw [if_neg editedC7_ne_displayC7]
    rfl

/-- Claim C7 (amended): any edited table that differs from the displayed
table — including one with a non-positive market price — replaces the
session table wholesale at the sync boundary; no validation is performed and
no prior field value is retained.  (Derived columns are shielded only by
widget-level `disabled` flags, not by this boundary.) -/
theorem C7_edit_sync_accepts_wholesale (sessionDf displayDf editedDf : List MarketRow)
    (h : editedDf ≠ displayDf) :
    syncEdits sessionDf displayDf editedDf = editedDf := by
  unfold syncEdits
  rw [if_neg h]

/-- Claim C7 witness: the −$5 edit from the counterexample input is indeed
stored wholesale. -/
theorem C7_witness :
    editedC7 ≠ displayC7 ∧ syncEdits sessionC7 displayC7 editedC7 = editedC7 :=
  ⟨editedC7_ne_displayC7,
    C7_edit_sync_accepts_wholesale sessionC7 displayC7 editedC7 editedC7_ne_displayC7⟩

/-- Claim C8: when the last ex-date lies strictly in the future of the as-of
instant (and the current rate is positive, as for every instrument here),
`days_elapsed` is negative and the accrued interest is negative — nothing is
clamped, and the computation is total so the table still renders. -/
theorem C8_future_ex_date_negative_accrual (m : InstrumentMeta) (sofr asOf price : ℚ)
    (lastEx : ℤ) (hfuture : asOf < (lastEx : ℚ)) (hrate : 0 < currentRateOf m sofr) :
    daysElapsed asOf lastEx < 0 ∧
    (computeRowD m price (daysElapsed asOf lastEx) sofr).accrued < 0 := by
  have hd : daysElapsed asOf lastEx < 0 := by
    unfold daysElapsed
    exact Int.floor_lt.mpr (by push_cast; linarith)
  refine ⟨hd, ?_⟩
  have hacc : (computeRowD m price (daysElapsed asOf lastEx) sofr).accrued =
      parValue * currentRateOf m sofr * ((daysElapsed asOf lastEx : ℚ) / 360) := rfl
  rw [hacc]
  apply mul_neg_of_pos_of_neg
  · exact mul_pos (by norm_num [parValue]) hrate
  · apply div_neg_of_neg_of_pos
    · exact_mod_cast hd
    · norm_num

/-- Claim C8 witness: MFA-PC at reference rate 3.6946%, as-of day 10, ex-date
day 11 (one day in the future). -/
theorem C8_witness :
    ((10:ℚ) < ((11:ℤ) : ℚ)) ∧ 0 < currentRateOf (META "MFA-PC") (36946/1000000) ∧
    daysElapsed 10 11 < 0 ∧
    (computeRowD (META "MFA-PC") 25 (daysElapsed 10 11) (36946/1000000)).accrued < 0 := by
  have h1 : (10:ℚ) < ((11:ℤ) : ℚ) := by norm_num
  have h2 : 0 < currentRateOf (META "MFA-PC") (36946/1000000) := by
    rw [META_MFA]
    norm_num [currentRateOf, ISDA_SPREAD]
  have h := C8_future_ex_date_negative_accrual (META "MFA-PC") (36946/1000000) 10 25 11 h1 h2
  exact ⟨h1, h2, h.1, h.2⟩

/-- Claim C9: after the refresh handler clears the session and the seed step
re-fetches, the session table equals the fresh snapshot — independent of any
previously edited table, whose values are no longer reachable — and every
seeded row's market price is the provider's freshly fetched (2-decimal
rounded) price.  The whole table is replaced in one step. -/
theorem C9_reset_restores_snapshot (edited : List MarketRow)
    (quotes : String → ProviderQuote) :
    seedIfAbsent (refreshReset (some edited)) (fetch_live_data quotes) =
      fetch_live_data quotes ∧
    ∀ r ∈ seedIfAbsent (refreshReset (some edited)) (fetch_live_data quotes),
      r.marketPrice = roundTo 2 (quotes r.ticker).price := by
  refine ⟨rfl, ?_⟩
  intro r hr
  have hr2 : r ∈ fetch_live_data quotes := hr
  simp only [fetch_live_data, List.mem_map] at hr2
  obtain ⟨t, ht, rfl⟩ := hr2
  rfl

/-- Claim C9 witness: a session holding an edited $99 price is reset against
quotes at $25.1625; the snapshot wins and the seeded price is the rounded
fetch. -/
theorem C9_witness :
    seedIfAbsent (refreshReset (some [editedRowC9])) (fetch_live_data quotesC9) =
      fetch_live_data quotesC9 ∧
    (fetchRow "MFA-PC" (quotesC9 "MFA-PC")).marketPrice =
      roundTo 2 (quotesC9 "MFA-PC").price := by
  have h := C9_reset_restores_snapshot [editedRowC9] quotesC9
  refine ⟨h.1, ?_⟩
  have hmem : fetchRow "MFA-PC" (quotesC9 "MFA-PC") ∈
      seedIfAbsent (refreshReset (some [editedRowC9])) (fetch_live_data quotesC9) := by
    show fetchRow "MFA-PC" (quotesC9 "MFA-PC") ∈ fetch_live_data quotesC9
    simp [fetch_live_data, TICKERS]
  exact h.2 _ hmem

/-- Claim C10: for a row with strictly positive clean price, the raw
sensitivity-scenario yield is strictly increasing in the rate shift: a larger
shift gives a strictly larger scenario yield under the same reference rate
and clean price. -/
theorem C10_scenario_yield_strict_mono (m : InstrumentMeta) (sofr clean_p s1 s2 : ℚ)
    (hclean : 0 < clean_p) (hs : s1 < s2) :
    scenarioYield m sofr s1 clean_p < scenarioYield m sofr s2 clean_p := by
  unfold scenarioYield
  have hnum : parValue * (sofr + s1 + m.margin + ISDA_SPREAD) <
      parValue * (sofr + s2 + m.margin + ISDA_SPREAD) := by
    have hp : (0:ℚ) < parValue := by norm_num [parValue]
    nlinarith
  rw [div_eq_mul_inv, div_eq_mul_inv]
  exact mul_lt_mul_of_pos_right hnum (inv_pos.mpr hclean)

/-- Claim C10 witness: MFA-PC at reference rate 3.6946%, clean price 24.509,
shifts 0 < +100bps. -/
theorem C10_witness :
    ((0:ℚ) < 24509/1000) ∧ ((0:ℚ) < 1/100) ∧
    scenarioYield (META "MFA-PC") (36946/1000000) 0 (24509/1000) <
      scenarioYield (META "MFA-PC") (36946/1000000) (1/100) (24509/1000) := by
  refine ⟨by norm_num, by norm_num, ?_⟩
  exact C10_scenario_yield_strict_mono (META "MFA-PC") (36946/1000000) (24509/1000) 0 (1/100)
    (by norm_num) (by norm_num)
